import Mathlib

/-!
Verification of the MRKL agent loop (`haystack/nodes/prompt/mrkl_agent.py`) and
the reflective schema generator (`haystack/preview/components/builders/service_container.py`).

Python strings are modelled as Lean `String` values; the Python operations used by
the source (slicing by character count, `startswith`, `split("\n")`, `strip`,
`lower`, substring search) are re-implemented below over the character list
`String.data`, mirroring CPython semantics for the relevant inputs.
-/

/-- Python `s.startswith(pre)`: `pre` is a prefix of `s` as a character sequence. -/
def pyStartsWith (s pre : String) : Bool :=
  pre.data.isPrefixOf s.data

/-- Python slicing `s[n:]`: drop the first `n` characters. -/
def pyDrop (n : Nat) (s : String) : String :=
  String.mk (s.data.drop n)

/-- Python `s.strip(c)` for a single-character argument: remove every leading and
every trailing occurrence of `c` (each end independently, all layers). -/
def pyStrip (c : Char) (s : String) : String :=
  String.mk (((s.data.dropWhile (· == c)).reverse.dropWhile (· == c)).reverse)

/-- Characters treated as whitespace by Python `str.strip()` (ASCII range). -/
def isPyWs (c : Char) : Bool :=
  c == ' ' || c == '\t' || c == '\n' || c == '\r' || c == '\x0b' || c == '\x0c'

/-- Python `s.strip()` with no argument: trim whitespace from both ends. -/
def pyStripWs (s : String) : String :=
  String.mk (((s.data.dropWhile isPyWs).reverse.dropWhile isPyWs).reverse)

/-- Python `s.lower()` (ASCII case folding suffices for the modelled inputs). -/
def pyLower (s : String) : String :=
  String.mk (s.data.map Char.toLower)

/-- Splitting a character sequence at every newline, keeping empty segments,
mirroring Python `s.split("\n")`. -/
def splitOnNl : List Char → List (List Char)
  | [] => [[]]
  | c :: cs =>
    match splitOnNl cs with
    | [] => [[]]
    | p :: rest => if c = '\n' then [] :: p :: rest else (c :: p) :: rest

/-- Python `s.split("\n")` as a list of strings. -/
def pySplitLines (s : String) : List String :=
  (splitOnNl s.data).map String.mk

/-- Python `"sep".join(parts)` for the join patterns used by the source
(`"\n".join`, `", ".join`, `"\n\n".join`). -/
def pyJoin (sep : String) : List String → String
  | [] => ""
  | [x] => x
  | x :: xs => x ++ sep ++ pyJoin sep xs

/-- Python `needle in hay` / `hay.index(needle)` / `hay.find(needle)`: index of the
first position at which `needle` occurs in `hay`, if any. -/
def findSub (needle : List Char) : List Char → Option Nat
  | [] => if needle.isPrefixOf [] then some 0 else none
  | c :: t => if needle.isPrefixOf (c :: t) then some 0 else (findSub needle t).map (· + 1)

/-- The Python exceptions raised by `MRKLAgent.get_action_and_input`: an
out-of-range list indexing (`IndexError`) or a `ValueError` with a message. -/
inductive PyError where
  | indexError : PyError
  | valueError (msg : String) : PyError
deriving DecidableEq

/-- Message of the `ValueError` raised when the last non-empty line does not
start with the action-input marker (the two adjacent Python string literals
concatenate into this one message). -/
def lastLineMsg : String :=
  "The last line does not have an action input, something has gone terribly wrong."

/-- Message of the `ValueError` raised when the second-to-last non-empty line
does not start with the action marker. -/
def secondLineMsg : String :=
  "The second to last line does not have an action, something has gone terribly wrong."

/-- The constant `FINAL_ANSWER_ACTION` from `get_action_and_input`
(note the trailing space). -/
def FINAL_ANSWER_ACTION : String := "Final Answer: "

/-- `ps = [p for p in llm_output.split("\n") if p]`: the non-empty lines of the
model output (a line of spaces is a non-empty string, hence kept). -/
def nonEmptyLines (s : String) : List String :=
  (pySplitLines s).filter (fun p => p != "")

/-- The body of `get_action_and_input`, working on the reversed line list so that
`ps[-1]` is the head and `ps[-2]` the second element.  Mirrors the source order:
final-answer check on the last line (prefix `"Final Answer"`, without colon),
then the action-input check on the last line, then the indexing of `ps[-2]` and
the action check, then the slicing and stripping of the returned pair. -/
def parseRev : List String → Except PyError (String × String)
  | [] => .error .indexError
  | lastLine :: rest =>
    if pyStartsWith lastLine "Final Answer" then
      .ok ("Final Answer", pyDrop FINAL_ANSWER_ACTION.length lastLine)
    else if pyStartsWith lastLine "Action Input: " then
      match rest with
      | [] => .error .indexError
      | secondLast :: _ =>
        if pyStartsWith secondLast "Action: " then
          .ok (pyDrop "Action: ".length secondLast,
               pyStrip '"' (pyStrip ' ' (pyDrop "Action Input: ".length lastLine)))
        else .error (.valueError secondLineMsg)
    else .error (.valueError lastLineMsg)

/-- `MRKLAgent.get_action_and_input(llm_output)`: returns the `(action, action_input)`
pair, where the pair `("Final Answer", x)` encodes the final directive. -/
def getActionAndInput (llmOutput : String) : Except PyError (String × String) :=
  parseRev (nonEmptyLines llmOutput).reverse

deriving instance DecidableEq for Except

/-!
## The agent loop `MRKLAgent.run`

The prompt node is modelled as a function `String → String` (the source calls
`self.prompt_node(template)` and takes `pred[0]`; the composite text-in/text-out
behaviour is the function).  A tool pipeline is modelled as a function
`String → String` from the action input to the `result["output"]` observation
returned by `next_pipeline.run(query=action_input)`.  `self.tool_map` is a
name-keyed association list with Python-dict lookup semantics (`KeyError`
on a missing key, modelled by `RunError.keyError`).
-/

/-- The hardcoded `tools` list built inside `run` (each dict has a `name` and a
`description` key). It does not read `self.tool_map`. -/
def tools : List (String × String) :=
  [("Calculator", "useful for when you need to answer questions about math"),
   ("Search", "useful for when you need to answer questions about current events. You should ask targeted questions")]

/-- `tool_strings = "\n".join(f"(name): (description)" per tool)`. -/
def toolStrings : String :=
  pyJoin "\n" (tools.map (fun tool => tool.1 ++ ": " ++ tool.2))

/-- `tool_names = ", ".join(name per tool)`. -/
def toolNames : String :=
  pyJoin ", " (tools.map (fun tool => tool.1))

/-- The `prefix` literal of `run`. -/
def prefixPart : String :=
  "Answer the following questions as best as you can. You have access to the following tools:"

/-- The `format_instructions` f-string of `run`, with `tool_names` spliced in. -/
def formatInstructions : String :=
  "Use the following format:\nQuestion: the input question you must answer\nThought: you should always think about what to do\nAction: the action to take, should be one of ["
    ++ toolNames
    ++ "]\nAction Input: the input to the action\nObservation: the result of the action\n... (this Thought/Action/Action Input/Observation can repeat N times)\nThought: I now know the final answer\nFinal Answer: the final answer to the original input question"

/-- The `suffix` f-string of `run`, with `query` and `agent_scratchpad` spliced in
(the trailing line holds the eight spaces of indentation before the closing
triple quote). -/
def suffixPart (query scratchpad : String) : String :=
  "Begin!\nQuestion: " ++ query ++ "\nThought: " ++ scratchpad ++ "\n        "

/-- `template = "\n\n".join([prefix, tool_strings, format_instructions, suffix])`,
built once before the loop with `agent_scratchpad = ""`. -/
def buildTemplate (query : String) : String :=
  pyJoin "\n\n" [prefixPart, toolStrings, formatInstructions, suffixPart query ""]

/-- A registered tool: action input text to observation text. -/
abbrev Tool := String → String

/-- `self.tool_map`. -/
abbrev ToolMap := List (String × Tool)

/-- The mutable local state of one `run` invocation: the working `query` variable
(mutated by `query += observation`) and the `template` variable (assigned once
before the loop and never reassigned). -/
structure RunState where
  query : String
  template : String
deriving DecidableEq

/-- Failures that escape the loop body: a parser exception, or the `KeyError`
raised by `self.tool_map[action]` for an unregistered action name (the spec
calls this `UnknownTool`). -/
inductive RunError where
  | parseFailure (e : PyError) : RunError
  | keyError (action : String) : RunError
deriving DecidableEq

/-- Result of one pass through the `while True` body. -/
inductive StepResult where
  | done (answer : String) : StepResult
  | failed (e : RunError) : StepResult
  | next (s : RunState) : StepResult
deriving DecidableEq

/-- One iteration of the loop body of `run`: call the prompt node on the current
`template`, parse, return on the final directive, otherwise look the action up
in `tool_map`, invoke the tool, and append the observation to `query`.  The
`template` field is carried over untouched, exactly as in the source. -/
def runStep (toolMap : ToolMap) (promptNode : String → String) (s : RunState) : StepResult :=
  match getActionAndInput (promptNode s.template) with
  | .error e => .failed (.parseFailure e)
  | .ok (action, actionInput) =>
    if action = "Final Answer" then
      .done actionInput
    else
      match List.lookup action toolMap with
      | none => .failed (.keyError action)
      | some tool =>
        let observation := tool actionInput
        .next { query := s.query ++ observation, template := s.template }

/-- Outcome of running the loop with a bounded amount of fuel (the source loop
is unbounded; `outOfFuel` carries the state reached when the bound is hit). -/
inductive RunOutcome where
  | final (answer : String) : RunOutcome
  | err (e : RunError) : RunOutcome
  | outOfFuel (s : RunState) : RunOutcome
deriving DecidableEq

/-- The `while True` loop of `run`, iterated at most `fuel` times. -/
def runLoop (toolMap : ToolMap) (promptNode : String → String) : Nat → RunState → RunOutcome
  | 0, s => .outOfFuel s
  | Nat.succ n, s =>
    match runStep toolMap promptNode s with
    | .done a => .final a
    | .failed e => .err e
    | .next s2 => runLoop toolMap promptNode n s2

/-- `MRKLAgent.run(query)` for an agent whose `tool_map` is `toolMap` and whose
prompt node is `promptNode`: builds the template once from the initial query and
enters the loop. -/
def run (toolMap : ToolMap) (promptNode : String → String) (fuel : Nat) (query : String) : RunOutcome :=
  runLoop toolMap promptNode fuel { query := query, template := buildTemplate query }

/-!
## The schema generator `ServiceContainer`

A Python method is modelled by the data `inspect` exposes on it and that
`generate_description` reads: `func.__name__`, `inspect.getdoc(func)` (`none`
when there is no docstring), `getfullargspec(func).args` (declared positional
parameter names, receiver included), `getfullargspec(func).annotations`
(name-keyed; a `PyAnnot` records `str(annotation)` and, for enumeration types,
the `__members__` key list), and the length of `getfullargspec(func).defaults`.
`json.dumps` followed by `json.loads` in the callers is the identity on this
structured value and is not modelled separately.
-/

/-- A declared type annotation as `generate_description` consumes it. -/
structure PyAnnot where
  typeStr : String
  members : Option (List String)
deriving DecidableEq

/-- The reflective view of one Python method. -/
structure PyFunction where
  name : String
  doc : Option String
  args : List String
  annotations : List (String × PyAnnot)
  defaults : Nat
deriving DecidableEq

/-- One entry of the generated `properties` mapping. -/
structure ParamInfo where
  type : String
  description : String
  enum : Option (List String)
deriving DecidableEq

/-- The generated `parameters` object (its fixed `"type": "object"` field is
omitted as it carries no information). `properties` keeps insertion order,
as a Python dict does. -/
structure ParameterSchema where
  properties : List (String × ParamInfo)
  required : List String
deriving DecidableEq

/-- The generated top-level description object. -/
structure ToolDescriptor where
  name : String
  description : String
  parameters : ParameterSchema
deriving DecidableEq

/-- The two `ValueError` failures of `generate_description`: the spec names them
`MissingDocumentation` (message `"No docstring provided for function ..."`) and
`MissingTypeAnnotation` (message `"No type annotation for parameter ... in
function ..."`). -/
inductive GenError where
  | missingDocumentation (funcName : String) : GenError
  | missingTypeAnnot (param funcName : String) : GenError
deriving DecidableEq

/-- Whether a generation result is the missing-type-annotation failure. -/
def isTypeErr : Except GenError ToolDescriptor → Bool
  | .error (.missingTypeAnnot _ _) => true
  | _ => false

/-- `ServiceContainer.extract_description`: the docstring up to the first line
whose stripped form starts with a `:` pydoc marker, re-joined and trimmed. -/
def extract_description (docstring : String) : String :=
  let lines := pySplitLines (pyStripWs docstring)
  let descriptionLines := lines.takeWhile (fun line => !(pyStartsWith (pyStripWs line) ":"))
  pyStripWs (pyJoin "\n" descriptionLines)

/-- The per-parameter description extraction inside `generate_description`:
locate `":param <arg>:"` in the docstring, take the text up to the next
`":param"` occurrence (or the end), and trim it; empty when the marker is
absent. -/
def paramDescOf (docstring arg : String) : String :=
  let paramDoc := ":param " ++ arg ++ ":"
  match findSub paramDoc.data docstring.data with
  | none => ""
  | some i =>
    let rest := docstring.data.drop (i + paramDoc.length)
    match findSub ":param".data rest with
    | none => pyStripWs (String.mk rest)
    | some j => pyStripWs (String.mk (rest.take j))

/-- The `for arg in func_info.args` loop of `generate_description`: skip `self`,
fail on the first parameter with no annotation, otherwise build its `ParamInfo`
(lowercased `str(annotation)`, docstring-sourced description, `enum` for
enumeration types) in declaration order. -/
def buildProps (funcName docstring : String) (anns : List (String × PyAnnot)) :
    List String → Except GenError (List (String × ParamInfo))
  | [] => .ok []
  | arg :: rest =>
    if arg = "self" then buildProps funcName docstring anns rest
    else
      match List.lookup arg anns with
      | none => .error (.missingTypeAnnot arg funcName)
      | some ann =>
        match buildProps funcName docstring anns rest with
        | .error e => .error e
        | .ok ps =>
          .ok ((arg, { type := pyLower ann.typeStr,
                       description := paramDescOf docstring arg,
                       enum := ann.members }) :: ps)

/-- The `required` computation of `generate_description`: with `n` declared
defaults the optional parameters are `args[-n:]` (empty when there are no
defaults), and `required` keeps, in order, every argument that is neither
optional nor `self`. -/
def requiredOf (f : PyFunction) : List String :=
  let optionalArgs :=
    if f.defaults > 0 then f.args.drop (f.args.length - f.defaults) else []
  f.args.filter (fun arg => !(optionalArgs.contains arg) && arg != "self")

/-- `ServiceContainer.generate_description(func)`: fails when the docstring is
missing or empty (`if not docstring`), then builds the properties (failing on
the first unannotated parameter) and the required list. -/
def generate_description (f : PyFunction) : Except GenError ToolDescriptor :=
  match f.doc with
  | none => .error (.missingDocumentation f.name)
  | some docstring =>
    if docstring = "" then .error (.missingDocumentation f.name)
    else
      match buildProps f.name docstring f.annotations f.args with
      | .error e => .error e
      | .ok props =>
        .ok { name := f.name,
              description := extract_description docstring,
              parameters := { properties := props, required := requiredOf f } }

/-- Lexicographic order on character sequences by code point: Python string
comparison, as used by the name sort of `inspect.getmembers`. -/
def charListLe : List Char → List Char → Bool
  | [], _ => true
  | _ :: _, [] => false
  | a :: as, b :: bs => if a < b then true else if b < a then false else charListLe as bs

/-- Python `a <= b` on strings. -/
def nameLe (a b : String) : Bool :=
  charListLe a.data b.data

/-- Stable insertion of a member into a name-sorted member list. -/
def insertByName (x : String × PyFunction) :
    List (String × PyFunction) → List (String × PyFunction)
  | [] => [x]
  | y :: ys => if nameLe x.1 y.1 then x :: y :: ys else y :: insertByName x ys

/-- Stable sort of the member list by member name (Python `sorted` by key). -/
def sortByName : List (String × PyFunction) → List (String × PyFunction)
  | [] => []
  | x :: xs => insertByName x (sortByName xs)

/-- `inspect.getmembers(cls, predicate=inspect.isfunction)`: the function
members of the class, sorted by member name (`getmembers` sorts the `dir`
listing; it does not filter out non-public names). -/
def getmembersFunctions (members : List (String × PyFunction)) : List (String × PyFunction) :=
  sortByName members

/-- The collection loop of `generate_descriptions`: one descriptor per member,
aborting on the first failure. -/
def genAll : List (String × PyFunction) → Except GenError (List ToolDescriptor)
  | [] => .ok []
  | m :: rest =>
    match generate_description m.2 with
    | .error e => .error e
    | .ok d =>
      match genAll rest with
      | .error e => .error e
      | .ok ds => .ok (d :: ds)

/-- `ServiceContainer.generate_descriptions(cls)` for a class whose function
members, in definition order, are `members`. -/
def generate_descriptions (members : List (String × PyFunction)) :
    Except GenError (List ToolDescriptor) :=
  genAll (getmembersFunctions members)

/-- The action-input normalisation as claim C4 words it: trim surrounding
spaces, then remove one layer of surrounding double quotes only when a quote is
present on both ends.  Stated from the claim, to be compared with the code,
which instead runs `.strip(" ").strip('"')`. -/
def specStripActionInput (s : String) : String :=
  let t := pyStrip ' ' s
  if 2 ≤ t.data.length ∧ t.data.head? = some '"' ∧ t.data.getLast? = some '"' then
    String.mk ((t.data.drop 1).dropLast)
  else t

/-- The `f(a: int, b: str = "x")` example of the spec, receiver included. -/
def c8ExFunc : PyFunction :=
  { name := "f", doc := some "Adds.", args := ["self", "a", "b"],
    annotations := [("a", ⟨"Int", none⟩), ("b", ⟨"Str", none⟩)], defaults := 1 }

/-- The descriptor generated for `c8ExFunc`. -/
def c8ExDesc : ToolDescriptor :=
  { name := "f", description := "Adds.",
    parameters :=
      { properties :=
          [("a", { type := "int", description := "", enum := none }),
           ("b", { type := "str", description := "", enum := none })],
        required := ["a"] } }

/-- A class with two public tools declared as `b_tool`, then `_private`, then
`a_tool` (declaration order), all documented. -/
def c9ExMembers : List (String × PyFunction) :=
  [("b_tool", { name := "b_tool", doc := some "B.", args := ["self"], annotations := [], defaults := 0 }),
   ("_private", { name := "_private", doc := some "P.", args := ["self"], annotations := [], defaults := 0 }),
   ("a_tool", { name := "a_tool", doc := some "A.", args := ["self"], annotations := [], defaults := 0 })]

/-! ## String lemmas -/

theorem strMk_data (s : String) : String.mk s.data = s := rfl

theorem strData_append (a b : String) : (a ++ b).data = a.data ++ b.data := rfl

theorem strExt {a b : String} (h : a.data = b.data) : a = b := by
  cases a; cases b; exact congrArg String.mk h

theorem isPrefixOf_append_self (l t : List Char) : l.isPrefixOf (l ++ t) = true := by
  simp [List.isPrefixOf_iff_prefix, List.prefix_append]

theorem pyStartsWith_append (p r : String) : pyStartsWith (p ++ r) p = true := by
  simp [pyStartsWith, strData_append, isPrefixOf_append_self]

theorem pyStartsWith_of_prefix {s p q : String} (hpq : q.data <+: p.data)
    (h : pyStartsWith s p = true) : pyStartsWith s q = true := by
  simp only [pyStartsWith, List.isPrefixOf_iff_prefix] at *
  exact hpq.trans h

theorem pyDrop_append (p r : String) (n : Nat) (hn : n = p.data.length) :
    pyDrop n (p ++ r) = r := by
  subst hn
  apply strExt
  simp [pyDrop, strData_append, List.drop_left]

theorem finalAnswer_not_prefix_of_actionInput (r : String) :
    pyStartsWith ("Action Input: " ++ r) "Final Answer" = false := rfl

/-! ## Claim C3 -/

/-- C3: for every model output whose last non-empty line starts with the
`"Final Answer: "` marker (the source constant `FINAL_ANSWER_ACTION`),
`get_action_and_input` returns the final directive — encoded as the pair with
first component `"Final Answer"` — whose answer is the remainder of that line
after the marker, regardless of how many lines precede it and of their
content. -/
theorem c3_final_answer (s : String) (front : List String) (rest : String)
    (h : nonEmptyLines s = front ++ ["Final Answer: " ++ rest]) :
    getActionAndInput s = .ok ("Final Answer", rest) := by
  have hfa : pyStartsWith ("Final Answer: " ++ rest) "Final Answer" = true :=
    pyStartsWith_of_prefix (by decide) (pyStartsWith_append "Final Answer: " rest)
  unfold getActionAndInput
  rw [h]
  simp [parseRev, hfa]
  exact pyDrop_append "Final Answer: " rest FINAL_ANSWER_ACTION.length (by decide)

/-- Witness for C3 at a concrete three-line output. -/
theorem c3_witness :
    getActionAndInput "Thought: easy\nSome noise\nFinal Answer: 4" = .ok ("Final Answer", "4") := by
  have h := c3_final_answer "Thought: easy\nSome noise\nFinal Answer: 4"
    ["Thought: easy", "Some noise"] "4" (by decide)
  simpa using h

/-! ## Claim C4 -/


/-- Counterexample to C4: with last two non-empty lines `Action: Look` and
`Action Input: "B` (a double quote on the left end only), the claim predicts
the quote is kept, but `.strip('"')` removes quote characters from either end
independently, so the code returns `B`. -/
theorem c4_counterexample :
    specStripActionInput "\"B" = "\"B" ∧
    getActionAndInput "Action: Look\nAction Input: \"B" = .ok ("Look", "B") ∧
    getActionAndInput "Action: Look\nAction Input: \"B" ≠ .ok ("Look", specStripActionInput "\"B") := by
  refine ⟨by decide, by decide, by decide⟩

/-- C4 as amended: for every output whose last two non-empty lines are
`Action: A` and `Action Input: B`, parse returns the pair whose action is `A`
verbatim and whose action input is `B` trimmed of all surrounding space
characters and then of all leading and all trailing double-quote characters,
each end independently (a quote at only one end is removed too, and several
layers are removed). -/
theorem c4_amended (s : String) (front : List String) (A B : String)
    (h : nonEmptyLines s = front ++ ["Action: " ++ A, "Action Input: " ++ B]) :
    getActionAndInput s = .ok (A, pyStrip '"' (pyStrip ' ' B)) := by
  have hnf : pyStartsWith ("Action Input: " ++ B) "Final Answer" = false :=
    finalAnswer_not_prefix_of_actionInput B
  have hai : pyStartsWith ("Action Input: " ++ B) "Action Input: " = true :=
    pyStartsWith_append "Action Input: " B
  have hac : pyStartsWith ("Action: " ++ A) "Action: " = true :=
    pyStartsWith_append "Action: " A
  unfold getActionAndInput
  rw [h]
  simp [parseRev, hnf, hai, hac,
    pyDrop_append "Action: " A ("Action: " : String).length (by decide),
    pyDrop_append "Action Input: " B ("Action Input: " : String).length (by decide)]

/-- Witness for C4 as amended, at a concrete output whose action input carries
surrounding spaces and one layer of quotes. -/
theorem c4_witness :
    getActionAndInput "Thought: search it\nAction: Search\nAction Input:  \"capital of France\" " =
      .ok ("Search", "capital of France") := by
  have h := c4_amended "Thought: search it\nAction: Search\nAction Input:  \"capital of France\" "
    ["Thought: search it"] "Search" " \"capital of France\" " (by decide)
  rw [h]
  decide

/-! ## Claim C5 -/

/-- Counterexample to C5: the last non-empty line `Final Answer!` starts with
neither the `"Final Answer: "` marker nor `Action Input: `, so the claim
demands a `MalformedDirective` failure; but the code tests only the prefix
`"Final Answer"` (without the colon), takes the final-answer branch, and
returns successfully (slicing off fourteen characters of a thirteen-character
line leaves the empty answer). -/
theorem c5_counterexample :
    pyStartsWith "Final Answer!" "Final Answer: " = false ∧
    pyStartsWith "Final Answer!" "Action Input: " = false ∧
    getActionAndInput "Final Answer!" = .ok ("Final Answer", "") := by
  refine ⟨by decide, by decide, by decide⟩

/-- C5 as amended: for every output with at least two non-empty lines whose
last non-empty line does not start with `"Final Answer"` (the prefix the code
actually tests, colon excluded), parse fails with a `ValueError` (the
`MalformedDirective` of the spec) exactly when the last line does not start
with `Action Input: ` or the second-to-last line does not start with
`Action: `, the two preconditions raising distinct messages.  (With fewer than
two non-empty lines the failure is an `IndexError` instead — claim C10.) -/
theorem c5_amended (s : String) (front : List String) (la lb : String)
    (h : nonEmptyLines s = front ++ [la, lb])
    (hnf : pyStartsWith lb "Final Answer" = false) :
    ((∃ m, getActionAndInput s = .error (.valueError m)) ↔
      (pyStartsWith lb "Action Input: " = false ∨ pyStartsWith la "Action: " = false)) ∧
    (pyStartsWith lb "Action Input: " = false →
      getActionAndInput s = .error (.valueError lastLineMsg)) ∧
    (pyStartsWith lb "Action Input: " = true → pyStartsWith la "Action: " = false →
      getActionAndInput s = .error (.valueError secondLineMsg)) ∧
    lastLineMsg ≠ secondLineMsg := by
  unfold getActionAndInput
  rw [h]
  cases hai : pyStartsWith lb "Action Input: " <;>
    cases hace : pyStartsWith la "Action: " <;>
      simp [parseRev, hnf, hai, hace] <;> decide

/-- Witness for C5 as amended: an output ending in `Action Input: go` with no
preceding `Action:` line fails with the second-to-last-line message. -/
theorem c5_witness :
    getActionAndInput "Thought: hm\nAction Input: go" = .error (.valueError secondLineMsg) := by
  have h := c5_amended "Thought: hm\nAction Input: go" [] "Thought: hm" "Action Input: go"
    (by decide) (by decide)
  exact h.2.2.1 (by decide) (by decide)

/-! ## Claim C10 -/

/-- Counterexample to C10: the input `hello` has exactly one non-empty line and
does not take the final-answer branch, yet the code raises the
`MalformedDirective` `ValueError` for the last-line check — not an out-of-range
indexing error — because that check precedes the `ps[-2]` indexing. -/
theorem c10_counterexample :
    getActionAndInput "hello" = .error (.valueError lastLineMsg) ∧
    getActionAndInput "hello" ≠ .error .indexError := by
  refine ⟨by decide, by decide⟩

/-- C10 as amended: the out-of-range indexing error (rather than
`MalformedDirective`) is raised exactly for text whose every newline-separated
segment is empty (so `ps` is empty — e.g. empty text or newline-only text), and
for text with a single non-empty line that starts with `Action Input: ` (the
`ps[-2]` access); a single non-empty line that does not start with
`Action Input: ` — including a whitespace-only line of spaces, which the
`if p` filter keeps — raises the last-line `ValueError` first. -/
theorem c10_amended :
    (∀ s : String, nonEmptyLines s = [] →
      getActionAndInput s = .error .indexError) ∧
    (∀ (s B : String), nonEmptyLines s = ["Action Input: " ++ B] →
      getActionAndInput s = .error .indexError) ∧
    (∀ (s lb : String), nonEmptyLines s = [lb] →
      pyStartsWith lb "Final Answer" = false →
      pyStartsWith lb "Action Input: " = false →
      getActionAndInput s = .error (.valueError lastLineMsg)) := by
  refine ⟨?_, ?_, ?_⟩
  · intro s h
    unfold getActionAndInput
    rw [h]
    rfl
  · intro s B h
    have hnf : pyStartsWith ("Action Input: " ++ B) "Final Answer" = false :=
      finalAnswer_not_prefix_of_actionInput B
    have hai : pyStartsWith ("Action Input: " ++ B) "Action Input: " = true :=
      pyStartsWith_append "Action Input: " B
    unfold getActionAndInput
    rw [h]
    simp [parseRev, hnf, hai]
  · intro s lb h hnf hai
    unfold getActionAndInput
    rw [h]
    simp [parseRev, hnf, hai]

/-- Witness for C10 as amended: newline-only text and a lone action-input line
both raise the indexing error; a lone line of spaces raises the last-line
`ValueError` instead. -/
theorem c10_witness :
    getActionAndInput "\n\n" = .error .indexError ∧
    getActionAndInput "Action Input: go" = .error .indexError ∧
    getActionAndInput " " = .error (.valueError lastLineMsg) := by
  refine ⟨c10_amended.1 "\n\n" (by decide),
    c10_amended.2.1 "Action Input: go" "go" (by decide),
    c10_amended.2.2 " " " " (by decide) (by decide) (by decide)⟩

/-! ## Claim C1 -/

/-- C1 (the claim is right, the code is wrong): whenever an iteration of the
loop body performs a tool invocation and continues, the observation is appended
to the working `query` variable, but the `template` — the only text ever passed
to the prompt node — is carried over unchanged, because it was assembled once
before the loop and `query += observation` writes to a variable that is never
read again.  So the prompt of the next model call never contains the new
observation (nor the action or its input), contradicting the claim and
spec section 4.4 step 6. -/
theorem c1_template_never_updated (tm : ToolMap) (pn : String → String) (s s2 : RunState)
    (h : runStep tm pn s = .next s2) :
    s2.template = s.template ∧ ∃ obs, s2.query = s.query ++ obs := by
  unfold runStep at h
  cases hp : getActionAndInput (pn s.template) with
  | error e => rw [hp] at h; exact absurd h (by simp)
  | ok p =>
    obtain ⟨action, actionInput⟩ := p
    rw [hp] at h
    by_cases hfa : action = "Final Answer"
    · simp [hfa] at h
    · simp only [if_neg hfa] at h
      cases hl : List.lookup action tm with
      | none => rw [hl] at h; exact absurd h (by simp)
      | some tool =>
        rw [hl] at h
        simp only [StepResult.next.injEq] at h
        refine ⟨by rw [← h], ⟨tool actionInput, by rw [← h]⟩⟩

set_option maxRecDepth 20000 in
/-- Witness for C1 at the end-to-end scenario of spec section 8: the model
picks the Calculator on `What is 2+2?`, the tool returns `4`, the step appends
the observation to `query` — and the next prompt is the very same template. -/
theorem c1_witness :
    (RunState.mk ("What is 2+2?" ++ "4") (buildTemplate "What is 2+2?")).template =
      (RunState.mk "What is 2+2?" (buildTemplate "What is 2+2?")).template ∧
    ∃ obs, (RunState.mk ("What is 2+2?" ++ "4") (buildTemplate "What is 2+2?")).query =
      (RunState.mk "What is 2+2?" (buildTemplate "What is 2+2?")).query ++ obs :=
  c1_template_never_updated [("Calculator", fun _ => "4")]
    (fun _ => "Action: Calculator\nAction Input: \"2+2\"")
    (RunState.mk "What is 2+2?" (buildTemplate "What is 2+2?"))
    (RunState.mk ("What is 2+2?" ++ "4") (buildTemplate "What is 2+2?"))
    (by decide)

/-! ## Claim C2 -/

set_option maxRecDepth 20000 in
/-- Counterexample to C2: an agent whose registry holds only `Weather` still
sends the model a prompt advertising the hardcoded Calculator/Search catalog —
the run below returns the marker answer its prompt-node emits only when handed
`buildTemplate` of the query, the hardcoded catalog names differ from the
registry names, and the registry name `Weather` does not occur anywhere in the
prompt text. -/
theorem c2_counterexample :
    run [("Weather", fun s => s)]
        (fun prompt => if prompt = buildTemplate "What is 2+2?"
          then "Final Answer: the model saw the hardcoded catalog" else "")
        1 "What is 2+2?"
      = .final "the model saw the hardcoded catalog" ∧
    tools.map (fun t => t.1) = ["Calculator", "Search"] ∧
    ([("Weather", fun s => s)] : ToolMap).map (fun e => e.1) = ["Weather"] ∧
    findSub "Weather".data (buildTemplate "What is 2+2?").data = none := by
  refine ⟨by decide, by decide, by decide, by decide⟩

set_option maxRecDepth 20000 in
/-- C2 as amended: the prompt assembled by `run(query)` is the fixed preamble,
the catalog rendered as one name-colon-description line per entry of the
hardcoded two-tool list (Calculator, Search) — independent of the agent's
`tool_map` — the format instructions naming exactly those two hardcoded names,
the original query, and the always-empty scratchpad, joined by blank lines. -/
theorem c2_amended (q : String) :
    buildTemplate q =
      prefixPart ++ "\n\n" ++ toolStrings ++ "\n\n" ++ formatInstructions ++ "\n\n"
        ++ ("Begin!\nQuestion: " ++ q ++ "\nThought: " ++ "" ++ "\n        ") ∧
    toolStrings =
      "Calculator: useful for when you need to answer questions about math\nSearch: useful for when you need to answer questions about current events. You should ask targeted questions" ∧
    toolNames = "Calculator, Search" ∧
    tools.map (fun t => t.1) = ["Calculator", "Search"] := by
  refine ⟨?_, by decide, by decide, by decide⟩
  apply strExt
  simp [buildTemplate, pyJoin, suffixPart, strData_append, List.append_assoc]

/-! ## Claim C6 -/

/-- C6: at any iteration of the loop, when the parsed directive is an action
whose name has no entry in `tool_map`, the lookup raises the `KeyError`
(`UnknownTool`) which propagates out of `run` as a hard failure — for every
remaining fuel bound, every registry without the name, and every behaviour of
the registered tools (so no tool is invoked, there is no fallback and no
retry). -/
theorem c6_unknown_tool (tm : ToolMap) (pn : String → String) (fuel : Nat) (s : RunState)
    (a i : String) (hf : 1 ≤ fuel)
    (hp : getActionAndInput (pn s.template) = .ok (a, i))
    (hfa : a ≠ "Final Answer")
    (hl : List.lookup a tm = none) :
    runLoop tm pn fuel s = .err (.keyError a) := by
  obtain ⟨n, rfl⟩ : ∃ n, fuel = n + 1 := ⟨fuel - 1, by omega⟩
  simp [runLoop, runStep, hp, hfa, hl]

/-- Witness for C6: a registry holding only the Calculator, a model output
choosing `Weather`, five iterations of fuel — the run fails with the
`Weather` key error. -/
theorem c6_witness :
    runLoop [("Calculator", fun x => x)]
        (fun _ => "Action: Weather\nAction Input: \"Paris\"") 5
        { query := "q", template := buildTemplate "q" } = .err (.keyError "Weather") :=
  c6_unknown_tool [("Calculator", fun x => x)]
    (fun _ => "Action: Weather\nAction Input: \"Paris\"") 5
    { query := "q", template := buildTemplate "q" } "Weather" "Paris"
    (by decide) (by decide) (by decide) rfl

/-! ## Claim C7 -/

/-- If some declared parameter other than `self` has no entry in the
annotations, the property-building loop fails with the missing-type failure
(named after the first such parameter in declaration order). -/
theorem buildProps_error_of_missing (fn d : String) (anns : List (String × PyAnnot)) :
    ∀ args : List String, (∃ a ∈ args, a ≠ "self" ∧ List.lookup a anns = none) →
      ∃ a2, buildProps fn d anns args = .error (.missingTypeAnnot a2 fn) := by
  intro args
  induction args with
  | nil => rintro ⟨a, ha, _⟩; cases ha
  | cons x rest ih =>
    rintro ⟨a, ha, hns, hl⟩
    by_cases hx : x = "self"
    · subst hx
      have har : a ∈ rest := by
        rcases List.mem_cons.mp ha with h1 | h1
        · exact absurd h1 hns
        · exact h1
      obtain ⟨a2, he⟩ := ih ⟨a, har, hns, hl⟩
      exact ⟨a2, by simpa [buildProps] using he⟩
    · cases hlx : List.lookup x anns with
      | none => exact ⟨x, by simp [buildProps, hx, hlx]⟩
      | some ann =>
        have hax : a ≠ x := by rintro rfl; rw [hlx] at hl; cases hl
        have har : a ∈ rest := by
          rcases List.mem_cons.mp ha with h1 | h1
          · exact absurd h1 hax
          · exact h1
        obtain ⟨a2, he⟩ := ih ⟨a, har, hns, hl⟩
        exact ⟨a2, by simp [buildProps, hx, hlx, he]⟩

/-- Counterexample to C7: a method with no docstring and an untyped parameter
`a`.  The claim demands the missing-type failure (its second conjunct applies:
`a` is a declared non-receiver parameter with no declared type), but the code
checks the docstring first and raises the missing-documentation failure. -/
theorem c7_counterexample :
    ("a" ∈ (PyFunction.mk "f" none ["self", "a"] [] 0).args ∧ "a" ≠ "self" ∧
      List.lookup "a" (PyFunction.mk "f" none ["self", "a"] [] 0).annotations = none) ∧
    generate_description (PyFunction.mk "f" none ["self", "a"] [] 0) =
      .error (.missingDocumentation "f") ∧
    isTypeErr (generate_description (PyFunction.mk "f" none ["self", "a"] [] 0)) = false := by
  refine ⟨by decide, by decide, by decide⟩

/-- C7 as amended: schema generation for a single method fails with
`MissingDocumentation` whenever the method has no (or an empty) documentation
text; and, when documentation text is present, it fails with
`MissingTypeAnnotation` whenever some declared parameter other than the
receiver has no declared type — absence of a declared type is never silently
defaulted. -/
theorem c7_amended (f : PyFunction) :
    ((f.doc = none ∨ f.doc = some "") →
      generate_description f = .error (.missingDocumentation f.name)) ∧
    (∀ d : String, f.doc = some d → d ≠ "" →
      (∃ a ∈ f.args, a ≠ "self" ∧ List.lookup a f.annotations = none) →
      ∃ a2, generate_description f = .error (.missingTypeAnnot a2 f.name)) := by
  constructor
  · rintro (h | h) <;> simp [generate_description, h]
  · intro d hd hne hex
    obtain ⟨a2, he⟩ := buildProps_error_of_missing f.name d f.annotations f.args hex
    exact ⟨a2, by simp [generate_description, hd, hne, he]⟩

/-- Witness for C7 as amended: a method with no docstring fails with
`MissingDocumentation`; a documented method with untyped parameter `x` fails
with `MissingTypeAnnotation`. -/
theorem c7_witness :
    generate_description (PyFunction.mk "g" none [] [] 0) =
      .error (.missingDocumentation "g") ∧
    (∃ a2, generate_description (PyFunction.mk "h" (some "Does things.") ["self", "x"] [] 0) =
      .error (.missingTypeAnnot a2 "h")) :=
  ⟨(c7_amended (PyFunction.mk "g" none [] [] 0)).1 (Or.inl rfl),
   (c7_amended (PyFunction.mk "h" (some "Does things.") ["self", "x"] [] 0)).2
     "Does things." rfl (by decide) ⟨"x", by decide⟩⟩

/-! ## Claim C8 -/

/-- Under distinct parameter names, filtering out the members of `l.drop k`
from `l` keeps exactly the first `k` elements. -/
theorem filter_drop_eq_take_filter (p : String → Bool) :
    ∀ (l : List String) (k : Nat), l.Nodup →
      l.filter (fun a => !((l.drop k).contains a) && p a) = (l.take k).filter p := by
  intro l
  induction l with
  | nil => intro k _; simp
  | cons x t ih =>
    intro k hnd
    rcases List.nodup_cons.mp hnd with ⟨hx, hnt⟩
    cases k with
    | zero =>
      simp only [List.drop_zero, List.take_zero, List.filter_nil]
      refine List.filter_eq_nil_iff.mpr ?_
      intro a ha
      simp [List.contains, List.elem_iff, ha]
    | succ k2 =>
      simp only [List.drop_succ_cons, List.take_succ_cons]
      rw [List.filter_cons, List.filter_cons]
      have hmem : x ∉ t.drop k2 := fun hm => hx (List.drop_subset _ _ hm)
      have hxd : ((t.drop k2).contains x) = false := by
        simp [List.contains, List.elem_iff, hmem]
      rw [ih k2 hnt]
      cases hpx : p x <;> simp [hxd, hpx, hmem]

/-- `requiredOf` computes the first `length - defaults` arguments with the
receiver filtered out. -/
theorem requiredOf_eq (f : PyFunction) (hnd : f.args.Nodup) :
    requiredOf f = (f.args.take (f.args.length - f.defaults)).filter (fun a => a != "self") := by
  unfold requiredOf
  by_cases hd : f.defaults > 0
  · simp only [if_pos hd]
    exact filter_drop_eq_take_filter (fun a => a != "self") f.args
      (f.args.length - f.defaults) hnd
  · have h0 : f.defaults = 0 := by omega
    simp [h0, List.take_length]

/-- The generated properties list carries exactly the non-receiver parameters
in declaration order. -/
theorem buildProps_map_fst (fn d : String) (anns : List (String × PyAnnot)) :
    ∀ (args : List String) (props : List (String × ParamInfo)),
      buildProps fn d anns args = .ok props →
      props.map Prod.fst = args.filter (fun a => a != "self") := by
  intro args
  induction args with
  | nil =>
    intro props h
    simp only [buildProps] at h
    injection h with h2
    subst h2
    simp
  | cons x rest ih =>
    intro props h
    by_cases hx : x = "self"
    · subst hx
      rw [List.filter_cons]
      simp only [buildProps] at h
      simpa using ih props h
    · simp only [buildProps, if_neg hx] at h
      cases hlx : List.lookup x anns with
      | none => rw [hlx] at h; cases h
      | some ann =>
        rw [hlx] at h
        cases hr : buildProps fn d anns rest with
        | error e => rw [hr] at h; cases h
        | ok ps =>
          rw [hr] at h
          injection h with h2
          subst h2
          rw [List.filter_cons]
          simp only [List.map_cons]
          rw [ih ps hr]
          simp [hx]

/-- C8: for every method with distinct parameter names whose schema is
generated, `required` is exactly the parameters with no default value — the
first `length - defaults` declared parameters, i.e. a parameter is optional
exactly when it is among the trailing `defaults` many — in declaration order
and with the receiver excluded; and `properties` holds every non-receiver
parameter in declaration order. -/
theorem c8_required (f : PyFunction) (desc : ToolDescriptor)
    (hnd : f.args.Nodup)
    (h : generate_description f = .ok desc) :
    desc.parameters.required =
      (f.args.take (f.args.length - f.defaults)).filter (fun a => a != "self") ∧
    desc.parameters.properties.map Prod.fst = f.args.filter (fun a => a != "self") := by
  unfold generate_description at h
  cases hdoc : f.doc with
  | none => rw [hdoc] at h; cases h
  | some d =>
    rw [hdoc] at h
    by_cases hde : d = ""
    · simp [hde] at h
    · simp only [if_neg hde] at h
      cases hbp : buildProps f.name d f.annotations f.args with
      | error e => rw [hbp] at h; cases h
      | ok props =>
        rw [hbp] at h
        injection h with h2
        subst h2
        exact ⟨requiredOf_eq f hnd, buildProps_map_fst f.name d f.annotations f.args props hbp⟩


/-- Witness for C8 at the spec example: `required = ["a"]`, `properties`
holding both `a` and `b` (with lowercased type tags). -/
theorem c8_witness :
    generate_description c8ExFunc = .ok c8ExDesc ∧
    c8ExDesc.parameters.required = ["a"] ∧
    c8ExDesc.parameters.properties.map Prod.fst = ["a", "b"] := by
  refine ⟨by decide, ?_, ?_⟩
  · have h := c8_required c8ExFunc c8ExDesc (by decide) (by decide)
    rw [h.1]; decide
  · have h := c8_required c8ExFunc c8ExDesc (by decide) (by decide)
    rw [h.2]; decide

/-! ## Claim C9 -/

theorem charListLe_total : ∀ l1 l2 : List Char, charListLe l1 l2 = true ∨ charListLe l2 l1 = true
  | [], _ => Or.inl rfl
  | _ :: _, [] => Or.inr rfl
  | a :: as, b :: bs => by
    rcases lt_trichotomy a b with h | h | h
    · left; simp [charListLe, h]
    · subst h
      simpa [charListLe, lt_irrefl] using charListLe_total as bs
    · right; simp [charListLe, h]

theorem charListLe_trans :
    ∀ l1 l2 l3 : List Char, charListLe l1 l2 = true → charListLe l2 l3 = true →
      charListLe l1 l3 = true := by
  intro l1
  induction l1 with
  | nil => intro l2 l3 _ _; rfl
  | cons a as ih =>
    intro l2 l3 h12 h23
    cases l2 with
    | nil => simp [charListLe] at h12
    | cons b bs =>
      cases l3 with
      | nil => simp [charListLe] at h23
      | cons c cs =>
        simp only [charListLe] at h12 h23 ⊢
        rcases lt_trichotomy a b with hab | hab | hab
        · rcases lt_trichotomy b c with hbc | hbc | hbc
          · simp [lt_trans hab hbc]
          · subst hbc; simp [hab]
          · simp [hbc, asymm hbc] at h23
        · subst hab
          rcases lt_trichotomy a c with hac | hac | hac
          · simp [hac]
          · subst hac
            simp only [lt_irrefl, if_neg (lt_irrefl a)] at h12 h23 ⊢
            exact ih bs cs (by simpa using h12) (by simpa using h23)
          · simp [hac, asymm hac] at h23
        · simp [hab, asymm hab] at h12

theorem nameLe_total (a b : String) : nameLe a b = true ∨ nameLe b a = true :=
  charListLe_total a.data b.data

theorem nameLe_trans {a b c : String} (h1 : nameLe a b = true) (h2 : nameLe b c = true) :
    nameLe a c = true :=
  charListLe_trans a.data b.data c.data h1 h2

theorem insertByName_perm (x : String × PyFunction) :
    ∀ l : List (String × PyFunction), (insertByName x l).Perm (x :: l) := by
  intro l
  induction l with
  | nil => exact List.Perm.refl _
  | cons y ys ih =>
    by_cases hxy : nameLe x.1 y.1 = true
    · simp [insertByName, hxy]
    · simp only [insertByName, if_neg hxy]
      exact (List.Perm.cons y ih).trans (List.Perm.swap x y ys)

theorem sortByName_perm : ∀ l : List (String × PyFunction), (sortByName l).Perm l := by
  intro l
  induction l with
  | nil => exact List.Perm.refl _
  | cons x xs ih =>
    exact (insertByName_perm x (sortByName xs)).trans (List.Perm.cons x ih)

theorem insertByName_pairwise (x : String × PyFunction) :
    ∀ l : List (String × PyFunction),
      l.Pairwise (fun u v => nameLe u.1 v.1 = true) →
      (insertByName x l).Pairwise (fun u v => nameLe u.1 v.1 = true) := by
  intro l
  induction l with
  | nil => intro _; simp [insertByName]
  | cons y ys ih =>
    intro h
    rcases List.pairwise_cons.mp h with ⟨hy, hys⟩
    by_cases hxy : nameLe x.1 y.1 = true
    · simp only [insertByName, if_pos hxy]
      refine List.pairwise_cons.mpr ⟨?_, h⟩
      intro z hz
      rcases List.mem_cons.mp hz with rfl | hz2
      · exact hxy
      · exact nameLe_trans hxy (hy z hz2)
    · simp only [insertByName, if_neg hxy]
      refine List.pairwise_cons.mpr ⟨?_, ih hys⟩
      intro z hz
      have hz2 : z = x ∨ z ∈ ys :=
        List.mem_cons.mp ((insertByName_perm x ys).mem_iff.mp hz)
      rcases hz2 with rfl | hz3
      · rcases nameLe_total z.1 y.1 with h1 | h1
        · exact absurd h1 hxy
        · exact h1
      · exact hy z hz3

theorem sortByName_pairwise :
    ∀ l : List (String × PyFunction),
      (sortByName l).Pairwise (fun u v => nameLe u.1 v.1 = true) := by
  intro l
  induction l with
  | nil => simp [sortByName]
  | cons x xs ih => exact insertByName_pairwise x (sortByName xs) ih

/-- A successful collection run produces exactly one descriptor per processed
member, in order. -/
theorem genAll_forall2 :
    ∀ (l : List (String × PyFunction)) (ds : List ToolDescriptor),
      genAll l = .ok ds →
      List.Forall₂ (fun (m : String × PyFunction) d => generate_description m.2 = .ok d) l ds := by
  intro l
  induction l with
  | nil =>
    intro ds h
    simp only [genAll] at h
    injection h with h2
    subst h2
    exact List.Forall₂.nil
  | cons m rest ih =>
    intro ds h
    simp only [genAll] at h
    cases hg : generate_description m.2 with
    | error e => rw [hg] at h; cases h
    | ok d =>
      rw [hg] at h
      cases hr : genAll rest with
      | error e => rw [hr] at h; cases h
      | ok ds2 =>
        rw [hr] at h
        injection h with h2
        subst h2
        exact List.Forall₂.cons hg (ih ds2 hr)


/-- Counterexample to C9: `generate_descriptions` on the class above emits a
descriptor for the non-public member `_private` (the member enumeration does
not filter non-public names), and the output order `_private, a_tool, b_tool`
is the name-sorted order, not the declaration order `b_tool, _private,
a_tool`. -/
theorem c9_counterexample :
    (generate_descriptions c9ExMembers).map (fun ds => ds.map ToolDescriptor.name) =
      .ok ["_private", "a_tool", "b_tool"] ∧
    pyStartsWith "_private" "_" = true ∧
    c9ExMembers.map (fun m => m.1) = ["b_tool", "_private", "a_tool"] := by
  refine ⟨by decide, by decide, by decide⟩

/-- C9 as amended: `generate_descriptions(cls)` produces, when it succeeds, one
`ToolDescriptor` per function member of the type — public or not — each via
`generate_description`, and the descriptors appear in the order of the
name-sorted listing of the member set (which is a permutation of the
declaration order, sorted by member name). -/
theorem c9_amended (members : List (String × PyFunction)) (ds : List ToolDescriptor)
    (h : generate_descriptions members = .ok ds) :
    List.Forall₂ (fun (m : String × PyFunction) d => generate_description m.2 = .ok d)
      (getmembersFunctions members) ds ∧
    (getmembersFunctions members).Perm members ∧
    (getmembersFunctions members).Pairwise (fun u v => nameLe u.1 v.1 = true) :=
  ⟨genAll_forall2 (getmembersFunctions members) ds h,
   sortByName_perm members, sortByName_pairwise members⟩

/-- Witness for C9 as amended at the concrete class above. -/
theorem c9_witness :
    List.Forall₂ (fun (m : String × PyFunction) d => generate_description m.2 = .ok d)
      (getmembersFunctions c9ExMembers)
      [{ name := "_private", description := "P.",
         parameters := { properties := [], required := [] } },
       { name := "a_tool", description := "A.",
         parameters := { properties := [], required := [] } },
       { name := "b_tool", description := "B.",
         parameters := { properties := [], required := [] } }] ∧
    (getmembersFunctions c9ExMembers).Perm c9ExMembers ∧
    (getmembersFunctions c9ExMembers).Pairwise (fun u v => nameLe u.1 v.1 = true) :=
  c9_amended c9ExMembers
    [{ name := "_private", description := "P.",
       parameters := { properties := [], required := [] } },
     { name := "a_tool", description := "A.",
       parameters := { properties := [], required := [] } },
     { name := "b_tool", description := "B.",
       parameters := { properties := [], required := [] } }]
    (by decide)
